import Mathlib

/-!
Verification of the homework-status polling bot (src/homework.py,
src/exeptions.py) against its specification.

The embedding models Python values flowing through the program as a small
JSON-like type, Python exceptions as an error type returned through
`Except`, and the logger as an explicit list of log entries.  Each function
of `homework.py` is translated one-to-one; the run loop's try/except body is
`run_cycle`, with partial state mutation before a raise modelled explicitly.
-/

/-- JSON-like values as Python passes them around (dicts, lists, strings,
ints, booleans, None). -/
inductive Json where
  | null
  | bool (b : Bool)
  | int (n : Int)
  | str (s : String)
  | list (xs : List Json)
  | obj (fields : List (String × Json))

/-- The Python exceptions this program can raise: the three classes of
`exeptions.py` that `homework.py` imports, `SendMessageError` (defined in
`exeptions.py` but never imported), and the builtin exceptions the code
raises or triggers. -/
inductive PyError where
  | apiConnectionError (msg : String)
  | unknownStatusError (msg : String)
  | incorrectKeyError (msg : String)
  | sendMessageError (msg : String)
  | typeError (msg : String)
  | keyError (key : String)
  | indexError (msg : String)
deriving Repr, DecidableEq

/-- str() of an exception, as interpolated into f-strings; a KeyError shows
the repr of the missing key (quoted). -/
def PyError.msg : PyError → String
  | .apiConnectionError m => m
  | .unknownStatusError m => m
  | .incorrectKeyError m => m
  | .sendMessageError m => m
  | .typeError m => m
  | .keyError k => "\x27" ++ k ++ "\x27"
  | .indexError m => m

-- Rendering of a JSON value inside a Python f-string (str()).  Scalar
-- cases match Python exactly; composite values are rendered structurally,
-- without the quote marks Python repr would put around nested strings.
mutual
def Json.pystr : Json → String
  | .null => "None"
  | .bool b => cond b "True" "False"
  | .int n => toString n
  | .str s => s
  | .list xs => "[" ++ Json.pystrItems xs ++ "]"
  | .obj fs => "\x7b" ++ Json.pystrFields fs ++ "\x7d"

def Json.pystrItems : List Json → String
  | [] => ""
  | [x] => Json.pystr x
  | x :: y :: xs => Json.pystr x ++ ", " ++ Json.pystrItems (y :: xs)

def Json.pystrFields : List (String × Json) → String
  | [] => ""
  | [(k, v)] => k ++ ": " ++ Json.pystr v
  | (k, v) :: g :: fs => k ++ ": " ++ Json.pystr v ++ ", " ++ Json.pystrFields (g :: fs)
end

/-- Python subscript `value[key]` with a string key: KeyError when a dict
lacks the key, TypeError when the value is not a dict. -/
def Json.getItem : Json → String → Except PyError Json
  | .obj fs, k =>
    match fs.lookup k with
    | some v => .ok v
    | none => .error (.keyError k)
  | _, _ => .error (.typeError "object is not subscriptable")

/-- Python subscript `value[i]` with an int index. -/
def Json.getIdx : Json → Nat → Except PyError Json
  | .list xs, i =>
    match xs.get? i with
    | some v => .ok v
    | none => .error (.indexError "list index out of range")
  | _, _ => .error (.typeError "object is not subscriptable")

/-- Python isinstance(value, list). -/
def Json.isList : Json → Bool
  | .list _ => true
  | _ => false

/-- Python len(). -/
def pyLen : Json → Except PyError Nat
  | .list xs => .ok xs.length
  | .str s => .ok s.length
  | .obj fs => .ok fs.length
  | _ => .error (.typeError "object has no len")

/-- Python truthiness of a JSON value. -/
def Json.pyTruthy : Json → Bool
  | .null => false
  | .bool b => b
  | .int n => n ≠ 0
  | .str s => s ≠ ""
  | .list xs => ¬ xs.isEmpty
  | .obj fs => ¬ fs.isEmpty

/-- Python `a or b`: a when truthy, else b. -/
def pyOr (a b : Json) : Json :=
  if a.pyTruthy then a else b

/-- Log levels of the logging calls the program makes. -/
inductive LogLevel where
  | debug
  | info
  | error
  | critical
deriving Repr, DecidableEq

structure LogEntry where
  level : LogLevel
  text : String
deriving Repr, DecidableEq

/-- RETRY_TIME = 600: the fixed sleep interval in seconds. -/
def RETRY_TIME : Nat := 600

/-- HOMEWORK_STATUSES: the fixed three-entry verdict table. -/
def HOMEWORK_STATUSES : List (String × String) :=
  [("approved", "Работа проверена: ревьюеру всё понравилось. Ура!"),
   ("reviewing", "Работа взята на проверку ревьюером."),
   ("rejected", "Работа проверена: у ревьюера есть замечания.")]

/-- Python dict lookup in a string-keyed dict: found only when the key is a
string present in the table. -/
def pyDictGet (d : List (String × String)) : Json → Option String
  | .str s => d.lookup s
  | _ => none

/-- Outcome of one attempted delivery on the chat transport. -/
inductive SendResult where
  | ok
  | failed (err : String)
deriving Repr, DecidableEq

/-- str() of the message argument (an Option since curr_message starts as
None in main). -/
def optStr : Option String → String
  | none => "None"
  | some s => s

/-- send_message: tries the transport; logs info on success, logs error on
failure.  Both paths return normally — the except branch only logs, so no
exception ever escapes. -/
def send_message (message : Option String) (transport : SendResult) :
    List LogEntry × Except PyError Unit :=
  match transport with
  | .ok => ([⟨.info, "Бот отправил сообщение: " ++ optStr message⟩], .ok ())
  | .failed err =>
      ([⟨.error, "Бот не смог отправить сообщение, ошибка: " ++ err⟩], .ok ())

/-- Outcome of the HTTP GET: transport failure, or a response with a status
code and parsed JSON body. -/
inductive HttpResult where
  | failure (err : String)
  | response (status : Nat) (body : Json)

/-- The status-code handling of get_api_answer after the request returned:
200 returns the parsed body unvalidated; 404 logs the endpoint-unavailable
message and raises APIConnectionError; any other code logs and raises
APIConnectionError, the message carrying the status code. -/
def handle_api_response (result : HttpResult) : List LogEntry × Except PyError Json :=
  match result with
  | .failure err =>
      ([], .error (.apiConnectionError ("Ошибка подключения к API: " ++ err)))
  | .response status body =>
      let reqLog : LogEntry := ⟨.info, "Запрос выполнен: " ++ toString status⟩
      if status = 200 then
        ([reqLog], .ok body)
      else if status = 404 then
        ([reqLog,
          ⟨.error, "Сбой в работе программы: Эндпоинт https://practicum.yandex.ru/api/user_api/homework_statuses/ недоступен. Код ответа API: 404"⟩],
         .error (.apiConnectionError ("Ошибка подключения к API: " ++ toString status)))
      else
        ([reqLog,
          ⟨.error, "Сбой в работе программы: Код ответа API: " ++ toString status ++ " "⟩],
         .error (.apiConnectionError ("Ошибка подключения к API: " ++ toString status)))

/-- get_api_answer: `timestamp = current_timestamp or int(time.time())`,
then one GET with query parameter from_date=timestamp.  `http` maps the
from_date value sent to the HTTP outcome; `now` is int(time.time()). -/
def get_api_answer (current_timestamp : Json) (now : Int)
    (http : Json → HttpResult) : List LogEntry × Except PyError Json :=
  handle_api_response (http (pyOr current_timestamp (.int now)))

/-- check_response: subscripts response["homeworks"] (KeyError propagates
uncaught when the key is absent, TypeError when response is not a dict),
raises TypeError when the value is not a list, then re-subscripts inside a
try whose except would raise IncorrectKeyError — unreachable, since the
same lookup on the same dict just succeeded — and returns the value. -/
def check_response (response : Json) : Except PyError Json :=
  match response.getItem "homeworks" with
  | .error e => .error e
  | .ok v =>
    if v.isList then
      match response.getItem "homeworks" with
      | .ok homeworks => .ok homeworks
      | .error e =>
          .error (.incorrectKeyError
            ("Неккоректный ключ в ответе API, ошибка: " ++ e.msg))
    else
      .error (.typeError
        ("Ответ от API не является списком: response = " ++ response.pystr))

/-- parse_status: reads homework_name and status, looks the status up in
HOMEWORK_STATUSES (any lookup failure raises UnknownStatusError), and
returns the formatted message embedding name and verdict. -/
def parse_status (homework : Json) : Except PyError String :=
  match homework.getItem "homework_name" with
  | .error e => .error e
  | .ok homework_name =>
    match homework.getItem "status" with
    | .error e => .error e
    | .ok homework_status =>
      match pyDictGet HOMEWORK_STATUSES homework_status with
      | some verdict =>
          .ok ("Изменился статус проверки работы \"" ++ homework_name.pystr
               ++ "\". " ++ verdict)
      | none =>
          .error (.unknownStatusError
            ("Неизвестный статус домашней работы, ошибка: "
             ++ homework_status.pystr))

/-- check_tokens-passing is assumed; the loop state main mutates across
iterations: curr_message, prev_message and the cursor current_timestamp
(held as the raw JSON value main stores from response["current_date"]). -/
structure PollState where
  current_timestamp : Json
  curr_message : Option String
  prev_message : Option String

/-- The external world of one loop iteration: the HTTP outcome as a function
of the from_date value sent, the wall clock int(time.time()), and the chat
transport's outcome should send_message be called. -/
structure CycleEnv where
  http : Json → HttpResult
  now : Int
  send : SendResult

/-- The error-level line main's except branch logs:
f-string "Сбой в работе программы: {error}". -/
def error_log (e : PyError) : LogEntry :=
  ⟨.error, "Сбой в работе программы: " ++ e.msg⟩

/-- Result of the fetch/validate/translate/cursor-advance prefix of the try
body: either an exception was raised (carrying the state as mutated up to
the raise, and the logs incl. the except branch's error log), or all four
steps succeeded with the computed curr_message and the new cursor. -/
inductive ComputePhase where
  | failed (st : PollState) (logs : List LogEntry) (e : PyError)
  | ready (curr : Option String) (cd : Json) (flogs : List LogEntry)

/-- Steps 1-4 of the try body: response = get_api_answer(current_timestamp);
homeworks = check_response(response); if len(homeworks) > 0: curr_message =
parse_status(homeworks[0]); current_timestamp = response["current_date"].
Note curr_message is assigned before the current_date subscript, so a
KeyError there leaves the already-updated curr_message in place. -/
def cycle_compute (env : CycleEnv) (st : PollState) : ComputePhase :=
  let flogs := (get_api_answer st.current_timestamp env.now env.http).1
  match (get_api_answer st.current_timestamp env.now env.http).2 with
  | .error e => .failed st (flogs ++ [error_log e]) e
  | .ok response =>
    match check_response response with
    | .error e => .failed st (flogs ++ [error_log e]) e
    | .ok homeworks =>
      match pyLen homeworks with
      | .error e => .failed st (flogs ++ [error_log e]) e
      | .ok n =>
        match (if 0 < n then
                 match homeworks.getIdx 0 with
                 | .error e => .error e
                 | .ok hw0 =>
                   match parse_status hw0 with
                   | .error e => .error e
                   | .ok m => Except.ok (some m)
               else Except.ok st.curr_message) with
        | .error e => .failed st (flogs ++ [error_log e]) e
        | .ok curr =>
          match response.getItem "current_date" with
          | .error e =>
              .failed { st with curr_message := curr } (flogs ++ [error_log e]) e
          | .ok cd => .ready curr cd flogs

/-- What one loop iteration produced: the state left behind, the cursor
value that was passed to get_api_answer, the message handed to send_message
when it was invoked, the log entries, the exception the except branch
caught (none when the try body completed), and the seconds slept. -/
structure CycleResult where
  state : PollState
  cursor_used : Json
  sent : Option (Option String)
  logs : List LogEntry
  caught : Option PyError
  slept_for : Nat

/-- One full iteration of main's while body (minus the stop-flag check):
the try body, then the curr/prev comparison — equal logs debug only,
different calls send_message (which never raises) and sets prev_message —
and the fixed sleep; any exception lands in the except branch which logs
error-level and also sleeps. -/
def run_cycle (env : CycleEnv) (st : PollState) : CycleResult :=
  match cycle_compute env st with
  | .failed st2 logs e =>
      { state := st2, cursor_used := st.current_timestamp, sent := none,
        logs := logs, caught := some e, slept_for := RETRY_TIME }
  | .ready curr cd flogs =>
      if curr = st.prev_message then
        { state := { current_timestamp := cd, curr_message := curr,
                     prev_message := st.prev_message },
          cursor_used := st.current_timestamp, sent := none,
          logs := flogs ++ [⟨.debug, "Нет обновления статуса домашней работы."⟩],
          caught := none, slept_for := RETRY_TIME }
      else
        { state := { current_timestamp := cd, curr_message := curr,
                     prev_message := curr },
          cursor_used := st.current_timestamp, sent := some curr,
          logs := flogs ++ (send_message curr env.send).1,
          caught := none, slept_for := RETRY_TIME }

/-- The while loop run over a finite schedule of cycle environments: every
scheduled iteration executes — an exception never breaks out of the loop,
since the catch-all except ends in the same sleep and the loop continues. -/
def run_loop (envs : List CycleEnv) (st : PollState) :
    PollState × List CycleResult :=
  match envs with
  | [] => (st, [])
  | env :: rest =>
      let r := run_cycle env st
      let (stFin, rs) := run_loop rest r.state
      (stFin, r :: rs)

/-- The run/stop flag values of class State in homework.py. -/
inductive RState where
  | INITIAL
  | RUNNING
  | STOPPED
deriving Repr, DecidableEq

/-- The two lock-guarded writes to the shared flag: main's `state = RUNNING`
before entering the loop, and repl's `state = STOPPED` on reading "s". -/
inductive FlagWrite where
  | setRunning
  | setStopped
deriving Repr, DecidableEq

def write_flag : RState → FlagWrite → RState
  | _, .setRunning => .RUNNING
  | _, .setStopped => .STOPPED

/-- The sequence of flag values produced by a sequence of writes (the lock
serialises the writes, so an execution is exactly one such sequence). -/
def flag_trace : RState → List FlagWrite → List RState
  | s, [] => [s]
  | s, w :: ws => s :: flag_trace (write_flag s w) ws

/-- Number of adjacent STOPPED→RUNNING transitions in a flag trace. -/
def stop_reversals : List RState → Nat
  | .STOPPED :: .RUNNING :: rest => 1 + stop_reversals (.RUNNING :: rest)
  | _ :: rest => stop_reversals rest
  | [] => 0

/-- ws is an interleaving of the write sequences of the two threads. -/
inductive Merge : List FlagWrite → List FlagWrite → List FlagWrite → Prop where
  | nil : Merge [] [] []
  | left : ∀ {x xs ys zs}, Merge xs ys zs → Merge (x :: xs) ys (x :: zs)
  | right : ∀ {y xs ys zs}, Merge xs ys zs → Merge xs (y :: ys) (y :: zs)

/-! ### Shared concrete fixtures used by witnesses and counterexamples -/

/-- A homework record with status "approved". -/
def hwApproved : Json :=
  .obj [("homework_name", .str "X"), ("status", .str "approved")]

/-- A 200-response body that lacks the current_date field. -/
def bodyNoDate : Json := .obj [("homeworks", .list [hwApproved])]

/-- A well-formed body with an empty homework list. -/
def bodyEmptyOk : Json :=
  .obj [("homeworks", .list []), ("current_date", .int 99)]

/-- A well-formed body with one approved homework. -/
def bodyOk : Json :=
  .obj [("homeworks", .list [hwApproved]), ("current_date", .int 5)]

def env1 : CycleEnv := ⟨fun _ => .response 200 bodyNoDate, 7, .ok⟩
def env2 : CycleEnv := ⟨fun _ => .response 200 bodyEmptyOk, 8, .ok⟩
def envOk : CycleEnv := ⟨fun _ => .response 200 bodyOk, 7, .ok⟩
def env404 : CycleEnv := ⟨fun _ => .response 404 .null, 7, .ok⟩

/-- A successful fetch of one approved homework, but a chat transport that
fails to deliver. -/
def envFail : CycleEnv := ⟨fun _ => .response 200 bodyOk, 7, .failed "boom"⟩

/-- The loop state right after main's initialisation (cursor from the
clock, both messages None). -/
def st0 : PollState := ⟨.int 1, none, none⟩

/-- The notification text for an approved homework named "X". -/
def msgX : String :=
  "Изменился статус проверки работы \"X\". Работа проверена: ревьюеру всё понравилось. Ура!"

/-- True exactly on a raised IncorrectKeyError. -/
def isIncorrectKey : Except PyError Json → Bool
  | .error (.incorrectKeyError _) => true
  | _ => false

/-- True exactly on a raised SendMessageError. -/
def raisesSendMessageError : Except PyError Unit → Bool
  | .error (.sendMessageError _) => true
  | _ => false

/-! ### Helper lemmas about one loop iteration -/

/-- A raise anywhere in steps 1-4 leaves prev_message untouched and puts
main's error-level line in the cycle's log. -/
theorem cycle_compute_failed_inv (env : CycleEnv) (st st2 : PollState)
    (logs : List LogEntry) (e : PyError)
    (h : cycle_compute env st = .failed st2 logs e) :
    st2.prev_message = st.prev_message ∧ error_log e ∈ logs := by
  unfold cycle_compute at h
  dsimp only at h
  repeat' split at h
  all_goals cases h
  all_goals exact ⟨rfl, by simp⟩

/-- When steps 1-4 all succeed, the fetch returned a body whose
current_date field is the new cursor. -/
theorem cycle_compute_ready_inv (env : CycleEnv) (st : PollState)
    (curr : Option String) (cd : Json) (flogs : List LogEntry)
    (h : cycle_compute env st = .ready curr cd flogs) :
    ∃ resp, (get_api_answer st.current_timestamp env.now env.http).2 = .ok resp ∧
      resp.getItem "current_date" = .ok cd := by
  unfold cycle_compute at h
  dsimp only at h
  repeat' split at h
  all_goals cases h
  exact ⟨_, by assumption, by assumption⟩

/-- The cursor handed to the fetcher in an iteration is exactly the
current_timestamp of the state entering that iteration. -/
theorem run_cycle_cursor_used (env : CycleEnv) (st : PollState) :
    (run_cycle env st).cursor_used = st.current_timestamp := by
  cases hcc : cycle_compute env st with
  | failed st2 logs e => simp only [run_cycle, hcc]
  | ready curr cd flogs =>
      simp only [run_cycle, hcc]
      split <;> rfl

/-- Every iteration ends in the fixed sleep, whether the try body completed
or the except branch ran. -/
theorem run_cycle_slept (env : CycleEnv) (st : PollState) :
    (run_cycle env st).slept_for = RETRY_TIME := by
  cases hcc : cycle_compute env st with
  | failed st2 logs e => simp only [run_cycle, hcc]
  | ready curr cd flogs =>
      simp only [run_cycle, hcc]
      split <;> rfl

/-- An iteration that completed its try body leaves prev_message equal to
curr_message (either it just notified and latched, or they already agreed). -/
theorem run_cycle_ok_prev_eq_curr (env : CycleEnv) (st : PollState)
    (h : (run_cycle env st).caught = none) :
    (run_cycle env st).state.prev_message = (run_cycle env st).state.curr_message := by
  cases hcc : cycle_compute env st with
  | failed st2 logs e =>
      simp only [run_cycle, hcc] at h
      exact Option.noConfusion h
  | ready curr cd flogs =>
      simp only [run_cycle, hcc]
      split
      next heq => exact heq.symm
      next => rfl

/-- An iteration that completed its try body and whose computed message
equals the incoming prev_message takes the log-only branch: nothing is
sent and the debug line is logged. -/
theorem run_cycle_ok_same_no_send (env : CycleEnv) (st : PollState)
    (h : (run_cycle env st).caught = none)
    (hsame : (run_cycle env st).state.curr_message = st.prev_message) :
    (run_cycle env st).sent = none ∧
    LogEntry.mk .debug "Нет обновления статуса домашней работы."
      ∈ (run_cycle env st).logs := by
  cases hcc : cycle_compute env st with
  | failed st2 logs e =>
      simp only [run_cycle, hcc] at h
      exact Option.noConfusion h
  | ready curr cd flogs =>
      simp only [run_cycle, hcc] at hsame ⊢
      split at hsame
      next heq => simp [if_pos heq]
      next hne => exact absurd hsame hne

/-- The loop executes every scheduled iteration: nothing shortens the
schedule. -/
theorem run_loop_length (envs : List CycleEnv) (st : PollState) :
    (run_loop envs st).2.length = envs.length := by
  induction envs generalizing st with
  | nil => rfl
  | cons env rest ih => simp [run_loop, ih]

/-! ### Claims -/

/-- Claim C1 as stated is false for the notify step: a delivery failure is
caught inside send_message, not at the cycle's top level — the except
branch of main never runs (caught = none), the only error-level line logged
is send_message's own, and the cycle then updates prev_message to the
message that was never delivered. -/
theorem claim_C1_counterexample :
    envFail.send = SendResult.failed "boom" ∧
    (run_cycle envFail st0).sent = some (some msgX) ∧
    (run_cycle envFail st0).caught = none ∧
    st0.prev_message = none ∧
    (run_cycle envFail st0).state.prev_message = some msgX ∧
    (run_cycle envFail st0).logs =
      [⟨.info, "Запрос выполнен: 200"⟩,
       ⟨.error, "Бот не смог отправить сообщение, ошибка: boom"⟩] :=
  ⟨rfl, rfl, rfl, rfl, rfl, rfl⟩

/-- Claim C1 amended: every error raised during a cycle's fetch, validate
or translate steps is caught at the cycle's top level, logged as an
error-level message, leaves prev_message unchanged, and the loop proceeds
to the fixed-interval sleep and the next iteration; no error terminates
the loop.  An error in the notify step, however, never reaches the cycle's
top level: send_message swallows it internally (logging an error-level
line), and the cycle then sets prev_message to the undelivered message. -/
theorem claim_C1_amended_thm (env : CycleEnv) (st : PollState)
    (rest : List CycleEnv) :
    (∀ e, (run_cycle env st).caught = some e →
        error_log e ∈ (run_cycle env st).logs ∧
        (error_log e).level = LogLevel.error ∧
        (run_cycle env st).state.prev_message = st.prev_message ∧
        (run_cycle env st).slept_for = RETRY_TIME) ∧
    (∀ err m, env.send = .failed err → (run_cycle env st).sent = some m →
        (run_cycle env st).caught = none ∧
        LogEntry.mk .error ("Бот не смог отправить сообщение, ошибка: " ++ err)
          ∈ (run_cycle env st).logs ∧
        (run_cycle env st).state.prev_message = m) ∧
    (run_loop (env :: rest) st).2.length = rest.length + 1 := by
  refine ⟨?_, ?_, run_loop_length (env :: rest) st⟩
  · intro e h
    cases hcc : cycle_compute env st with
    | ready curr cd flogs =>
        simp only [run_cycle, hcc] at h
        split at h <;> exact Option.noConfusion h
    | failed st2 logs e2 =>
        simp only [run_cycle, hcc] at h
        injection h with h2
        subst h2
        obtain ⟨hprev, hmem⟩ := cycle_compute_failed_inv env st st2 logs e2 hcc
        refine ⟨?_, rfl, ?_, run_cycle_slept env st⟩
        · simp only [run_cycle, hcc]; exact hmem
        · simp only [run_cycle, hcc]; exact hprev
  · intro err m hsendf hsent
    cases hcc : cycle_compute env st with
    | failed st2 logs e =>
        simp only [run_cycle, hcc] at hsent
        exact Option.noConfusion hsent
    | ready curr cd flogs =>
        simp only [run_cycle, hcc] at hsent ⊢
        split at hsent
        next => exact Option.noConfusion hsent
        next hne =>
            injection hsent with hm
            refine ⟨?_, ?_, ?_⟩
            · rw [if_neg hne]
            · rw [if_neg hne]
              simp [hsendf, send_message]
            · rw [if_neg hne]
              exact hm

/-- Witness for the amended C1: a 404 cycle exercises the top-level catch;
a failed-delivery cycle exercises the in-notifier swallow and the
prev_message update. -/
theorem claim_C1_witness :
    (error_log (.apiConnectionError "Ошибка подключения к API: 404")
        ∈ (run_cycle env404 st0).logs ∧
     (error_log (.apiConnectionError "Ошибка подключения к API: 404")).level
        = LogLevel.error ∧
     (run_cycle env404 st0).state.prev_message = st0.prev_message ∧
     (run_cycle env404 st0).slept_for = RETRY_TIME) ∧
    ((run_cycle envFail st0).caught = none ∧
     LogEntry.mk .error ("Бот не смог отправить сообщение, ошибка: " ++ "boom")
       ∈ (run_cycle envFail st0).logs ∧
     (run_cycle envFail st0).state.prev_message = some msgX) :=
  ⟨(claim_C1_amended_thm env404 st0 []).1
      (.apiConnectionError "Ошибка подключения к API: 404") rfl,
   (claim_C1_amended_thm envFail st0 []).2.1 "boom" (some msgX) rfl rfl⟩

/-- Claim C2 as stated is false: for a response lacking the "homeworks" key
check_response raises a bare KeyError (the subscript happens before any
try), and for a non-list value it raises TypeError — neither is
IncorrectKeyError. -/
theorem claim_C2_counterexample :
    check_response (.obj []) = .error (.keyError "homeworks") ∧
    isIncorrectKey (check_response (.obj [])) = false ∧
    check_response (.obj [("homeworks", .int 0)]) =
      .error (.typeError
        "Ответ от API не является списком: response = \x7bhomeworks: 0\x7d") ∧
    isIncorrectKey (check_response (.obj [("homeworks", .int 0)])) = false :=
  ⟨rfl, rfl, rfl, rfl⟩

/-- Subscripting never produces IncorrectKeyError: it raises only KeyError
or TypeError. -/
theorem getItem_not_incorrectKey (j : Json) (k m : String) :
    j.getItem k ≠ Except.error (.incorrectKeyError m) := by
  cases j <;> simp only [Json.getItem] <;> try simp
  case obj fs => cases fs.lookup k <;> simp

/-- Claim C2 amended: check_response propagates the subscript's own error
when the homeworks field is absent (KeyError) or the response is not a dict
(TypeError), raises TypeError when the field is not list-typed, returns the
list unchanged (including empty) otherwise, and never raises
IncorrectKeyError — that branch is unreachable. -/
theorem claim_C2_amended_thm (response : Json) :
    (∀ e, response.getItem "homeworks" = .error e →
        check_response response = .error e) ∧
    (∀ v, response.getItem "homeworks" = .ok v → v.isList = false →
        check_response response = .error (.typeError
          ("Ответ от API не является списком: response = " ++ response.pystr))) ∧
    (∀ xs, response.getItem "homeworks" = .ok (.list xs) →
        check_response response = .ok (.list xs)) ∧
    isIncorrectKey (check_response response) = false := by
  refine ⟨?_, ?_, ?_, ?_⟩
  · intro e he; simp [check_response, he]
  · intro v hv hnl; simp [check_response, hv, hnl]
  · intro xs hxs; simp [check_response, hxs, Json.isList]
  · cases hg : response.getItem "homeworks" with
    | error e =>
        cases e
        case incorrectKeyError m =>
          exact absurd hg (getItem_not_incorrectKey response "homeworks" m)
        all_goals simp [check_response, hg, isIncorrectKey]
    | ok v =>
        cases hv : v.isList
        · simp [check_response, hg, hv, isIncorrectKey]
        · simp [check_response, hg, hv, isIncorrectKey]

/-- Witness for the amended C2 at concrete inputs. -/
theorem claim_C2_witness :
    check_response (.obj [("homeworks", .list [])]) = .ok (.list []) ∧
    check_response (.obj [("current_date", .int 3)])
      = .error (.keyError "homeworks") :=
  ⟨(claim_C2_amended_thm _).2.2.1 [] rfl, (claim_C2_amended_thm _).1 _ rfl⟩

/-- Claim C3 as stated is false: when delivery fails, send_message logs the
error and returns normally — it raises nothing, in particular not
SendMessageError (which homework.py never even imports). -/
theorem claim_C3_counterexample :
    send_message (some "hi") (.failed "boom") =
      ([⟨.error, "Бот не смог отправить сообщение, ошибка: boom"⟩], .ok ()) ∧
    raisesSendMessageError (send_message (some "hi") (.failed "boom")).2 = false :=
  ⟨rfl, rfl⟩

/-- Claim C3 amended: on delivery failure the notifier logs an error-level
message and swallows the failure, raising nothing; on success the send is
logged at info level; in both cases exactly one delivery attempt is made
(no retry). -/
theorem claim_C3_amended_thm (m : Option String) (err : String) :
    send_message m (.failed err) =
      ([⟨.error, "Бот не смог отправить сообщение, ошибка: " ++ err⟩], .ok ()) ∧
    send_message m .ok =
      ([⟨.info, "Бот отправил сообщение: " ++ optStr m⟩], .ok ()) :=
  ⟨rfl, rfl⟩

/-- Claim C4: over two consecutive completed cycles computing the identical
message, the notifier is invoked at most once — the second cycle does not
resend, it only logs the debug line. -/
theorem claim_C4_no_resend (e1 e2 : CycleEnv) (st : PollState)
    (h1 : (run_cycle e1 st).caught = none)
    (h2 : (run_cycle e2 (run_cycle e1 st).state).caught = none)
    (hsame : (run_cycle e2 (run_cycle e1 st).state).state.curr_message
           = (run_cycle e1 st).state.curr_message) :
    (run_cycle e2 (run_cycle e1 st).state).sent = none ∧
    LogEntry.mk .debug "Нет обновления статуса домашней работы."
      ∈ (run_cycle e2 (run_cycle e1 st).state).logs ∧
    ((if (run_cycle e1 st).sent = none then 0 else 1) +
     (if (run_cycle e2 (run_cycle e1 st).state).sent = none then 0 else 1) ≤ 1) := by
  have hprev := run_cycle_ok_prev_eq_curr e1 st h1
  have hkey : (run_cycle e2 (run_cycle e1 st).state).state.curr_message
      = (run_cycle e1 st).state.prev_message := by rw [hsame, hprev]
  obtain ⟨hsent, hlog⟩ := run_cycle_ok_same_no_send e2 (run_cycle e1 st).state h2 hkey
  refine ⟨hsent, hlog, ?_⟩
  simp only [hsent, if_pos]
  split <;> simp

/-- Witness for C4: two identical successful approved-homework cycles; the
first notifies, the second does not. -/
theorem claim_C4_witness :
    (run_cycle envOk (run_cycle envOk st0).state).sent = none ∧
    LogEntry.mk .debug "Нет обновления статуса домашней работы."
      ∈ (run_cycle envOk (run_cycle envOk st0).state).logs ∧
    ((if (run_cycle envOk st0).sent = none then 0 else 1) +
     (if (run_cycle envOk (run_cycle envOk st0).state).sent = none then 0 else 1) ≤ 1) :=
  claim_C4_no_resend envOk envOk st0 rfl rfl rfl

/-- Claim C5: after a successful cycle whose fetch returned resp, the
cursor passed to the fetcher in the next cycle is exactly resp's
server-supplied current_date value, not a locally recomputed one. -/
theorem claim_C5_cursor_roundtrip (e1 e2 : CycleEnv) (st : PollState) (resp : Json)
    (hresp : (get_api_answer st.current_timestamp e1.now e1.http).2 = .ok resp)
    (h : (run_cycle e1 st).caught = none) :
    (run_cycle e2 (run_cycle e1 st).state).cursor_used
      = (run_cycle e1 st).state.current_timestamp ∧
    resp.getItem "current_date"
      = .ok ((run_cycle e2 (run_cycle e1 st).state).cursor_used) := by
  have hcu := run_cycle_cursor_used e2 (run_cycle e1 st).state
  refine ⟨hcu, ?_⟩
  rw [hcu]
  cases hcc : cycle_compute e1 st with
  | failed st2 logs e =>
      simp only [run_cycle, hcc] at h
      exact Option.noConfusion h
  | ready curr cd flogs =>
      obtain ⟨resp2, hr2, hcd⟩ := cycle_compute_ready_inv e1 st curr cd flogs hcc
      rw [hresp] at hr2
      obtain rfl : resp = resp2 := Except.ok.inj hr2
      have hts : (run_cycle e1 st).state.current_timestamp = cd := by
        simp only [run_cycle, hcc]
        split <;> rfl
      rw [hts]
      exact hcd

/-- Witness for C5: one successful cycle with current_date 5; the next
fetch is passed cursor 5. -/
theorem claim_C5_witness :
    (run_cycle envOk (run_cycle envOk st0).state).cursor_used
      = (run_cycle envOk st0).state.current_timestamp ∧
    bodyOk.getItem "current_date"
      = .ok ((run_cycle envOk (run_cycle envOk st0).state).cursor_used) :=
  claim_C5_cursor_roundtrip envOk envOk st0 bodyOk rfl rfl

/-- Claim C6: on an HTTP response, status 200 returns the parsed body with
no schema validation; any other status raises APIConnectionError whose
message carries the status code. -/
theorem claim_C6_fetch_status (ct : Json) (now : Int) (http : Json → HttpResult)
    (code : Nat) (body : Json)
    (h : http (pyOr ct (.int now)) = .response code body) :
    (code = 200 → (get_api_answer ct now http).2 = .ok body) ∧
    (code ≠ 200 → (get_api_answer ct now http).2 =
      .error (.apiConnectionError ("Ошибка подключения к API: " ++ toString code))) := by
  constructor
  · intro h200
    subst h200
    simp [get_api_answer, h, handle_api_response]
  · intro hne
    simp only [get_api_answer, h, handle_api_response]
    simp only [if_neg hne]
    split <;> rfl

/-- Witness for C6 at status 404 (the documented endpoint-unavailable
case). -/
theorem claim_C6_witness :
    (get_api_answer (.int 5) 7 (fun _ => HttpResult.response 404 .null)).2 =
      .error (.apiConnectionError ("Ошибка подключения к API: " ++ toString (404 : Nat))) :=
  (claim_C6_fetch_status (.int 5) 7 (fun _ => HttpResult.response 404 .null)
    404 .null rfl).2 (by decide)

/-- Claim C7 as stated is false: a cycle whose validated response has an
empty homework list CAN send a notification — curr_message persists across
iterations, so a message computed by an earlier cycle that failed before
notifying (here: response lacking current_date) is sent by the later
empty-list cycle. -/
theorem claim_C7_counterexample :
    check_response bodyEmptyOk = .ok (.list []) ∧
    (run_cycle env2 (run_cycle env1 st0).state).caught = none ∧
    (run_cycle env2 (run_cycle env1 st0).state).sent = some (some msgX) :=
  ⟨rfl, rfl, rfl⟩

/-- Claim C7 amended: for a cycle whose response validates to an empty
homework list and carries current_date, no error is raised and translation
is skipped (curr_message is left as it was); no notification is sent that
cycle provided the carried-over current message equals the last-notified
one (as holds whenever no earlier cycle computed a message it failed to
notify). -/
theorem claim_C7_amended_thm (env : CycleEnv) (st : PollState) (resp cd : Json)
    (hfetch : (get_api_answer st.current_timestamp env.now env.http).2 = .ok resp)
    (hhw : resp.getItem "homeworks" = .ok (.list []))
    (hcd : resp.getItem "current_date" = .ok cd) :
    (run_cycle env st).caught = none ∧
    (run_cycle env st).state.curr_message = st.curr_message ∧
    (st.curr_message = st.prev_message → (run_cycle env st).sent = none) := by
  have hcheck : check_response resp = .ok (.list []) := by
    simp [check_response, hhw, Json.isList]
  have hcc : cycle_compute env st = .ready st.curr_message cd
      (get_api_answer st.current_timestamp env.now env.http).1 := by
    simp [cycle_compute, hfetch, hcheck, hcd, pyLen]
  refine ⟨?_, ?_, ?_⟩
  · simp only [run_cycle, hcc]
    split <;> rfl
  · simp only [run_cycle, hcc]
    split <;> rfl
  · intro heq
    simp only [run_cycle, hcc, if_pos heq]

/-- Witness for the amended C7: a fresh state (no pending message) and an
empty-list response — nothing is sent, nothing raised. -/
theorem claim_C7_witness :
    (run_cycle env2 st0).caught = none ∧
    (run_cycle env2 st0).state.curr_message = st0.curr_message ∧
    (st0.curr_message = st0.prev_message → (run_cycle env2 st0).sent = none) :=
  claim_C7_amended_thm env2 st0 bodyEmptyOk (.int 99) rfl rfl rfl

/-- Claim C8: for every homework record whose status is "approved",
parse_status returns exactly the approved-verdict message embedding the
record's homework name. -/
theorem claim_C8_approved_message (hw : Json) (name : String)
    (hname : hw.getItem "homework_name" = .ok (.str name))
    (hstatus : hw.getItem "status" = .ok (.str "approved")) :
    parse_status hw = .ok ("Изменился статус проверки работы \"" ++ name
      ++ "\". " ++ "Работа проверена: ревьюеру всё понравилось. Ура!") := by
  simp [parse_status, hname, hstatus, pyDictGet, HOMEWORK_STATUSES, Json.pystr]

/-- Witness for C8 at the record named "X". -/
theorem claim_C8_witness : parse_status hwApproved = .ok msgX :=
  claim_C8_approved_message hwApproved "X" rfl rfl

/-- Claim C9 evaluation at the failing interleaving: main writes RUNNING
only after starting the repl thread, so the interleaving in which the
operator's stop (STOPPED write) happens first is a legal merge of the two
threads' write sequences — and on it the flag is set back from STOPPED to
RUNNING, after which no writer remains to stop the loop.  The claim (never
reversed) is the documented intent ("Плавное завершение"); the code's
initialisation order is the slip. -/
theorem claim_C9_race_evaluation :
    Merge [FlagWrite.setRunning] [FlagWrite.setStopped]
      [FlagWrite.setStopped, FlagWrite.setRunning] ∧
    flag_trace RState.INITIAL [FlagWrite.setStopped, FlagWrite.setRunning]
      = [RState.INITIAL, RState.STOPPED, RState.RUNNING] ∧
    stop_reversals (flag_trace RState.INITIAL
      [FlagWrite.setStopped, FlagWrite.setRunning]) = 1 :=
  ⟨Merge.right (Merge.left Merge.nil), rfl, rfl⟩

/-- Claim C10: the fetcher sends any nonzero integer cursor verbatim as
from_date, and substitutes int(time.time()) for a cursor of 0 — the
Python `or` fallback the spec does not state. -/
theorem claim_C10_from_date_fallback (n now : Int) (http : Json → HttpResult)
    (ct : Json) (hn : n ≠ 0) :
    get_api_answer (.int n) now http = handle_api_response (http (.int n)) ∧
    get_api_answer (.int 0) now http = handle_api_response (http (.int now)) ∧
    get_api_answer ct now http = handle_api_response (http (pyOr ct (.int now))) := by
  refine ⟨?_, ?_, rfl⟩
  · unfold get_api_answer pyOr
    simp [Json.pyTruthy, hn]
  · unfold get_api_answer pyOr
    simp [Json.pyTruthy]

/-- Witness for C10 at cursor 7 and clock 42. -/
theorem claim_C10_witness :
    get_api_answer (.int 7) 42 (fun _ => HttpResult.response 200 .null)
      = handle_api_response ((fun _ => HttpResult.response 200 .null) (Json.int 7)) ∧
    get_api_answer (.int 0) 42 (fun _ => HttpResult.response 200 .null)
      = handle_api_response ((fun _ => HttpResult.response 200 .null) (Json.int 42)) ∧
    get_api_answer (.bool true) 42 (fun _ => HttpResult.response 200 .null)
      = handle_api_response ((fun _ => HttpResult.response 200 .null)
          (pyOr (.bool true) (.int 42))) :=
  claim_C10_from_date_fallback 7 42 (fun _ => HttpResult.response 200 .null)
    (.bool true) (by decide)
